import Mathlib

/-!
Verification development for the status-LED signaling engine (`led.py`).

The engine is the class `LED`: a background animation loop (`_animate`)
drives a PWM pin and a BlinkStick RGB LED, a single mutable field
`self.state` is the mailbox written by `set_state`, and `start`/`stop`
manage the thread lifecycle.

Shallow embedding conventions:
* `self.iterator` is always either `None` or `itertools.cycle(fr)` for a
  nonempty finite list `fr`; it is modelled by the field `iterator : List Nat`
  (`[]` standing for `None`) together with `cursor`, the number of elements
  the cycle object has already yielded, so `next()` returns
  `fr[cursor % fr.length]`.
* Float literals (`0.5`, `0.25`, `0.1`, `0.05`) and the float results of
  true division are modelled in `ℚ`.
* Python truthiness of `self.state` (`None` and `""` are falsy) is the
  function `truthy`.
* Hardware effects are recorded in the state: the registered PWM duty,
  whether the PWM is running, whether the GPIO line was driven low, the
  last RGB triple written to the BlinkStick, and the list of sleeps the
  loop has performed.
* Exceptions (`Thread.start` on a started thread, `Thread.join` on an
  unstarted thread, and injected driver I/O faults) are `Except.error`
  carrying the message and the state at the point the exception escapes.
-/

namespace StatusLed

/-- `self.max_pwm = 100`. -/
def max_pwm : Nat := 100

/-- `self.max_brightness = 255`. -/
def max_brightness : Nat := 255

/-- Python `range(start, stop, step)` for a positive `step`
(`start, start+step, ...` strictly below `stop`). -/
def py_range_up (start stop step : Nat) : List Nat :=
  (List.range ((stop - start + step - 1) / step)).map (fun i => start + step * i)

/-- Python `range(start, stop, -step)` for a positive `step`
(`start, start-step, ...` strictly above `stop`). -/
def py_range_down (start stop step : Nat) : List Nat :=
  (List.range ((start - stop + step - 1) / step)).map (fun i => start - step * i)

/-- The mutable state of an `LED` object together with the observable
state of its two output devices and its animator thread. -/
structure EngineState where
  /-- `self.state`: the mailbox slot read by the loop. -/
  state : Option String
  /-- `self.last_known_state`. -/
  last_known_state : Option String
  /-- `self.iterator`: frames of the current cycle, `[]` for `None`. -/
  iterator : List Nat
  /-- how many values `next()` has already taken from the cycle object. -/
  cursor : Nat
  /-- `self.sleep` (seconds). -/
  sleep : ℚ
  /-- `self.running`. -/
  running : Bool
  /-- `self.base_red`. -/
  base_red : Nat
  /-- `self.base_green`. -/
  base_green : Nat
  /-- `self.base_blue`. -/
  base_blue : Nat
  /-- duty percentage last registered with the PWM driver. -/
  pwm_duty : Nat
  /-- whether `pwm.start` has been called without a matching `pwm.stop`. -/
  pwm_on : Bool
  /-- whether `GPIO.output(channel, GPIO.LOW)` has driven the line low. -/
  gpio_low : Bool
  /-- red component last written by `bstick.set_color`. -/
  rgb_red : ℚ
  /-- green component last written by `bstick.set_color`. -/
  rgb_green : ℚ
  /-- blue component last written by `bstick.set_color`. -/
  rgb_blue : ℚ
  /-- whether `self.animator.start()` has ever been called. -/
  thread_started : Bool
  /-- whether the animator thread is alive. -/
  thread_alive : Bool
  /-- number of `logger.warning` calls made by the loop. -/
  warning_count : Nat
  /-- the `time.sleep` durations the loop has performed, in order. -/
  sleeps_performed : List ℚ

/-- The state established by `LED.__init__`: no iterator, not running,
no pending state, `sleep = 0`, BlinkStick blanked to black, default base
colour red `(255, 0, 0)`. -/
def init_state : EngineState where
  state := none
  last_known_state := none
  iterator := []
  cursor := 0
  sleep := 0
  running := false
  base_red := 255
  base_green := 0
  base_blue := 0
  pwm_duty := 0
  pwm_on := false
  gpio_low := false
  rgb_red := 0
  rgb_green := 0
  rgb_blue := 0
  thread_started := false
  thread_alive := false
  warning_count := 0
  sleeps_performed := []

/-- `LED.set_state`: store the token in the mailbox and reset the base
colour to red, unconditionally. -/
def set_state (t : String) (s : EngineState) : EngineState :=
  { s with state := some t,
           last_known_state := some t,
           base_red := 255,
           base_green := 0,
           base_blue := 0 }

/-- Python truthiness of `self.state` (`None` and `""` are falsy). -/
def truthy : Option String → Bool
  | none => false
  | some t => t != ""

/-- Lines 97–179 of `_animate`: if `self.state` is truthy, dispatch on it
through the `if`/`elif` chain, then set `self.state = None`; otherwise do
nothing. -/
def consume_state (s : EngineState) : EngineState :=
  if truthy s.state then
    -- every branch below also records the unconditional `self.state = None`
    -- executed at line 179 after the `if`/`elif` chain
    if s.state.getD "" = "on-green" then
      { s with state := none, iterator := [], sleep := 0, pwm_duty := max_pwm,
               base_red := 0, base_green := 190, base_blue := 0,
               rgb_red := 0, rgb_green := 190, rgb_blue := 0 }
    else if s.state.getD "" = "on-red" then
      { s with state := none, iterator := [], sleep := 0, pwm_duty := max_pwm,
               rgb_red := (s.base_red : ℚ), rgb_green := (s.base_green : ℚ),
               rgb_blue := (s.base_blue : ℚ) }
    else if s.state.getD "" = "off" then
      { s with state := none, iterator := [], sleep := 0, pwm_duty := 0,
               rgb_red := 0, rgb_green := 0, rgb_blue := 0 }
    else if s.state.getD "" = "blink" then
      { s with state := none, iterator := [0, max_pwm], cursor := 0, sleep := 0.5 }
    else if s.state.getD "" = "blink-3" then
      { s with state := none,
               iterator := [0, max_pwm] ++ [0, max_pwm] ++ [0, max_pwm] ++ [0, 0],
               cursor := 0, sleep := 0.25 }
    else if s.state.getD "" = "beacon" then
      { s with state := none,
               iterator := List.replicate 100 30 ++ List.replicate 8 max_pwm ++
                 py_range_down max_pwm 30 5,
               cursor := 0, sleep := 0.05 }
    else if s.state.getD "" = "beacon-dark" then
      { s with state := none,
               iterator := List.replicate 10 0 ++ py_range_up 0 30 3 ++
                 py_range_down 30 0 3,
               cursor := 0, sleep := 0.05 }
    else if s.state.getD "" = "decay" then
      { s with state := none, iterator := py_range_down max_pwm 0 2,
               cursor := 0, sleep := 0.05 }
    else if s.state.getD "" = "pulse-slow" then
      { s with state := none,
               iterator := py_range_up 0 max_pwm 2 ++ py_range_down max_pwm 0 2,
               cursor := 0, sleep := 0.1 }
    else if s.state.getD "" = "pulse-slow-dark" then
      { s with state := none,
               iterator := py_range_up 10 80 2 ++ py_range_down 80 10 2,
               cursor := 0, sleep := 0.1 }
    else if s.state.getD "" = "pulse-quick" then
      { s with state := none,
               iterator := py_range_up 0 max_pwm 5 ++ py_range_down max_pwm 0 5,
               cursor := 0, sleep := 0.05 }
    else
      -- `logger.warning("unsupported state: %s", self.state)`
      { s with state := none, warning_count := s.warning_count + 1 }
  else s

/-- The value `next(self.iterator)` yields at position `n` of the cycle
over `fr`. -/
def frame_at (fr : List Nat) (n : Nat) : Nat := fr.getD (n % fr.length) 0

/-- Lines 180–195 of `_animate`: if an iterator is installed, take the next
frame, write it to the PWM, write the scaled base colour to the BlinkStick
and sleep `self.sleep`; otherwise sleep `0.25`. -/
def render_frame (s : EngineState) : EngineState :=
  if s.iterator ≠ [] then
    let new_value := frame_at s.iterator s.cursor
    let brightness : ℚ := ((min max_pwm new_value : Nat) : ℚ) / (max_brightness : ℚ)
    { s with cursor := s.cursor + 1,
             pwm_duty := new_value,
             rgb_red := (s.base_red : ℚ) * brightness,
             rgb_green := (s.base_green : ℚ) * brightness,
             rgb_blue := (s.base_blue : ℚ) * brightness,
             sleeps_performed := s.sleeps_performed ++ [s.sleep] }
  else
    { s with sleeps_performed := s.sleeps_performed ++ [(0.25 : ℚ)] }

/-- One full iteration of the `while self.running` loop body. -/
def animate_step (s : EngineState) : EngineState :=
  render_frame (consume_state s)

/-- Up to `n` iterations of `while self.running: <body>`; the flag is
checked before each iteration, exactly as in the source. -/
def loop_run : Nat → EngineState → EngineState
  | 0, s => s
  | n + 1, s => if s.running then loop_run n (animate_step s) else s

/-- `LED.start`: `pwm.start(0)`, set `running`, then `animator.start()`.
`Thread.start` raises `RuntimeError` if the thread was started before;
the error carries the state at the raise (the PWM restart and the
`running = True` write have already happened). -/
def start (s : EngineState) : Except (String × EngineState) EngineState :=
  let s1 := { s with pwm_on := true, pwm_duty := 0, running := true }
  if s1.thread_started then
    .error ("threads can only be started once", s1)
  else
    .ok { s1 with thread_started := true, thread_alive := true }

/-- `LED.stop`: clear `running`, `animator.join()`, `pwm.stop()`, drive the
GPIO line low.  `in_flight` says whether the animator was already past the
loop guard when the flag was cleared, in which case that iteration still
completes before the guard observes `running = False`.  `Thread.join`
raises `RuntimeError` if the thread was never started. -/
def stop (s : EngineState) (in_flight : Bool) : Except (String × EngineState) EngineState :=
  let s1 := { s with running := false }
  if s1.thread_started then
    let s2 := if in_flight then animate_step s1 else s1
    let s3 := { s2 with thread_alive := false }
    .ok { s3 with pwm_on := false, gpio_low := true }
  else
    .error ("cannot join thread before it is started", s1)

/-- Physical level of the PWM-driven line: it carries the registered duty
only while the PWM is running and the line has not been forced low. -/
def pwm_output (s : EngineState) : Nat :=
  if s.pwm_on ∧ ¬s.gpio_low then s.pwm_duty else 0

/-- The tokens the `if`/`elif` chain of `_animate` recognises. -/
def valid_tokens : List String :=
  ["on-green", "on-red", "off", "blink", "blink-3", "beacon", "beacon-dark",
   "decay", "pulse-slow", "pulse-slow-dark", "pulse-quick"]

/-- Lines 180–195 with fallible hardware writes: `pwm_fault` makes
`pwm.ChangeDutyCycle` raise, `bstick_fault` makes `bstick.set_color`
raise.  `next(self.iterator)` has already advanced the cycle when
`ChangeDutyCycle` runs, and the duty write has already landed when
`set_color` runs; there is no handler in `_animate`, so the error
propagates with the state at the raise. -/
def render_frame_exc (pwm_fault bstick_fault : Bool) (s : EngineState) :
    Except (String × EngineState) EngineState :=
  if s.iterator ≠ [] then
    let new_value := frame_at s.iterator s.cursor
    let s1 := { s with cursor := s.cursor + 1 }
    if pwm_fault then .error ("ChangeDutyCycle failed", s1)
    else
      let s2 := { s1 with pwm_duty := new_value }
      if bstick_fault then .error ("set_color failed", s2)
      else
        let brightness : ℚ := ((min max_pwm new_value : Nat) : ℚ) / (max_brightness : ℚ)
        .ok { s2 with rgb_red := (s.base_red : ℚ) * brightness,
                      rgb_green := (s.base_green : ℚ) * brightness,
                      rgb_blue := (s.base_blue : ℚ) * brightness,
                      sleeps_performed := s.sleeps_performed ++ [s.sleep] }
  else .ok { s with sleeps_performed := s.sleeps_performed ++ [(0.25 : ℚ)] }

/-- `while self.running` with fallible frame writes: an uncaught exception
ends the thread immediately. -/
def loop_run_exc (pwm_fault bstick_fault : Bool) :
    Nat → EngineState → Except (String × EngineState) EngineState
  | 0, s => .ok s
  | n + 1, s =>
    if s.running then
      match render_frame_exc pwm_fault bstick_fault (consume_state s) with
      | .ok s1 => loop_run_exc pwm_fault bstick_fault n s1
      | .error e => .error e
    else .ok s

/-- `true` iff the animator thread died with an uncaught exception. -/
def thread_died : Except (String × EngineState) EngineState → Bool
  | .error _ => true
  | .ok _ => false

/-- The message of an uncaught exception, if any. -/
def err_msg : Except (String × EngineState) EngineState → Option String
  | .error (m, _) => some m
  | .ok _ => none

/-- The last RGB triple written to the BlinkStick, on the non-exceptional
path. -/
def ok_rgb : Except (String × EngineState) EngineState → Option (ℚ × ℚ × ℚ)
  | .ok u => some (u.rgb_red, u.rgb_green, u.rgb_blue)
  | .error _ => none

/-- The sleeps performed, on the non-exceptional path. -/
def ok_sleeps : Except (String × EngineState) EngineState → Option (List ℚ)
  | .ok u => some u.sleeps_performed
  | .error _ => none

/-- The engine right after a successful `start()` on a fresh object. -/
def started_state : EngineState :=
  { init_state with pwm_on := true, pwm_duty := 0, running := true,
                    thread_started := true, thread_alive := true }

/-- The engine right after `start(); stop()` with the loop idle at the
guard. -/
def stopped_state : EngineState :=
  { started_state with running := false, thread_alive := false,
                       pwm_on := false, gpio_low := true }

/-- A running engine that has consumed `set_state("blink")` and rendered
one frame. -/
def blink_active : EngineState :=
  animate_step (set_state "blink" started_state)

/-- The base colour is the default red `(255, 0, 0)`. -/
def base_is_red (s : EngineState) : Prop :=
  s.base_red = 255 ∧ s.base_green = 0 ∧ s.base_blue = 0

/-- Inductive invariant of the engine: whenever the mailbox holds a
consumable token, and whenever a cyclic iterator is installed, the base
colour is the default red.  (The only write that moves the base colour
away from red is the `on-green` branch, which also clears the iterator,
and every `set_state` resets it to red before the next consumption.) -/
def engine_inv (s : EngineState) : Prop :=
  (truthy s.state = true → base_is_red s) ∧ (s.iterator ≠ [] → base_is_red s)

/-- States reachable from construction through the public operations and
loop iterations. -/
inductive Reachable : EngineState → Prop
  | init : Reachable init_state
  | set (t : String) {s : EngineState} : Reachable s → Reachable (set_state t s)
  | step {s : EngineState} : Reachable s → Reachable (animate_step s)
  | started {s u : EngineState} : Reachable s → start s = .ok u → Reachable u
  | stopped {s u : EngineState} {b : Bool} : Reachable s → stop s b = .ok u →
      Reachable u

theorem start_init_state : start init_state = .ok started_state := rfl

theorem consume_on_green (s : EngineState) (h : s.state = some "on-green") :
    consume_state s =
      { s with state := none, iterator := [], sleep := 0, pwm_duty := max_pwm,
               base_red := 0, base_green := 190, base_blue := 0,
               rgb_red := 0, rgb_green := 190, rgb_blue := 0 } := by
  rcases s with ⟨st, lks, it, cur, sl, run, br, bg, bb, pd, po, gl, rr, rg, rb, ts, ta, wc, sp⟩
  subst h
  rfl

theorem consume_on_red (s : EngineState) (h : s.state = some "on-red") :
    consume_state s =
      { s with state := none, iterator := [], sleep := 0, pwm_duty := max_pwm,
               rgb_red := (s.base_red : ℚ), rgb_green := (s.base_green : ℚ),
               rgb_blue := (s.base_blue : ℚ) } := by
  rcases s with ⟨st, lks, it, cur, sl, run, br, bg, bb, pd, po, gl, rr, rg, rb, ts, ta, wc, sp⟩
  subst h
  rfl

theorem consume_off (s : EngineState) (h : s.state = some "off") :
    consume_state s =
      { s with state := none, iterator := [], sleep := 0, pwm_duty := 0,
               rgb_red := 0, rgb_green := 0, rgb_blue := 0 } := by
  rcases s with ⟨st, lks, it, cur, sl, run, br, bg, bb, pd, po, gl, rr, rg, rb, ts, ta, wc, sp⟩
  subst h
  rfl

theorem consume_blink (s : EngineState) (h : s.state = some "blink") :
    consume_state s =
      { s with state := none, iterator := [0, max_pwm], cursor := 0, sleep := 0.5 } := by
  rcases s with ⟨st, lks, it, cur, sl, run, br, bg, bb, pd, po, gl, rr, rg, rb, ts, ta, wc, sp⟩
  subst h
  rfl

theorem consume_blink_3 (s : EngineState) (h : s.state = some "blink-3") :
    consume_state s =
      { s with state := none,
               iterator := [0, max_pwm] ++ [0, max_pwm] ++ [0, max_pwm] ++ [0, 0],
               cursor := 0, sleep := 0.25 } := by
  rcases s with ⟨st, lks, it, cur, sl, run, br, bg, bb, pd, po, gl, rr, rg, rb, ts, ta, wc, sp⟩
  subst h
  rfl

theorem consume_beacon (s : EngineState) (h : s.state = some "beacon") :
    consume_state s =
      { s with state := none,
               iterator := List.replicate 100 30 ++ List.replicate 8 max_pwm ++
                 py_range_down max_pwm 30 5,
               cursor := 0, sleep := 0.05 } := by
  rcases s with ⟨st, lks, it, cur, sl, run, br, bg, bb, pd, po, gl, rr, rg, rb, ts, ta, wc, sp⟩
  subst h
  rfl

theorem consume_beacon_dark (s : EngineState) (h : s.state = some "beacon-dark") :
    consume_state s =
      { s with state := none,
               iterator := List.replicate 10 0 ++ py_range_up 0 30 3 ++
                 py_range_down 30 0 3,
               cursor := 0, sleep := 0.05 } := by
  rcases s with ⟨st, lks, it, cur, sl, run, br, bg, bb, pd, po, gl, rr, rg, rb, ts, ta, wc, sp⟩
  subst h
  rfl

theorem consume_decay (s : EngineState) (h : s.state = some "decay") :
    consume_state s =
      { s with state := none, iterator := py_range_down max_pwm 0 2,
               cursor := 0, sleep := 0.05 } := by
  rcases s with ⟨st, lks, it, cur, sl, run, br, bg, bb, pd, po, gl, rr, rg, rb, ts, ta, wc, sp⟩
  subst h
  rfl

theorem consume_pulse_slow (s : EngineState) (h : s.state = some "pulse-slow") :
    consume_state s =
      { s with state := none,
               iterator := py_range_up 0 max_pwm 2 ++ py_range_down max_pwm 0 2,
               cursor := 0, sleep := 0.1 } := by
  rcases s with ⟨st, lks, it, cur, sl, run, br, bg, bb, pd, po, gl, rr, rg, rb, ts, ta, wc, sp⟩
  subst h
  rfl

theorem consume_pulse_slow_dark (s : EngineState)
    (h : s.state = some "pulse-slow-dark") :
    consume_state s =
      { s with state := none,
               iterator := py_range_up 10 80 2 ++ py_range_down 80 10 2,
               cursor := 0, sleep := 0.1 } := by
  rcases s with ⟨st, lks, it, cur, sl, run, br, bg, bb, pd, po, gl, rr, rg, rb, ts, ta, wc, sp⟩
  subst h
  rfl

theorem consume_pulse_quick (s : EngineState) (h : s.state = some "pulse-quick") :
    consume_state s =
      { s with state := none,
               iterator := py_range_up 0 max_pwm 5 ++ py_range_down max_pwm 0 5,
               cursor := 0, sleep := 0.05 } := by
  rcases s with ⟨st, lks, it, cur, sl, run, br, bg, bb, pd, po, gl, rr, rg, rb, ts, ta, wc, sp⟩
  subst h
  rfl

theorem consume_not_truthy (s : EngineState) (h0 : ¬(truthy s.state = true)) :
    consume_state s = s := by
  unfold consume_state
  rw [if_neg h0]

theorem consume_invalid (s : EngineState) (t : String) (h : s.state = some t)
    (ht : t ≠ "") (hmem : t ∉ valid_tokens) :
    consume_state s =
      { s with state := none, warning_count := s.warning_count + 1 } := by
  obtain ⟨n1, n2, n3, n4, n5, n6, n7, n8, n9, n10, n11⟩ :
      t ≠ "on-green" ∧ t ≠ "on-red" ∧ t ≠ "off" ∧ t ≠ "blink" ∧ t ≠ "blink-3" ∧
      t ≠ "beacon" ∧ t ≠ "beacon-dark" ∧ t ≠ "decay" ∧ t ≠ "pulse-slow" ∧
      t ≠ "pulse-slow-dark" ∧ t ≠ "pulse-quick" := by
    simpa [valid_tokens] using hmem
  unfold consume_state
  rw [h]
  rw [if_pos (by simp [truthy, ht])]
  rw [if_neg (by simp [n1]), if_neg (by simp [n2]), if_neg (by simp [n3]),
      if_neg (by simp [n4]), if_neg (by simp [n5]), if_neg (by simp [n6]),
      if_neg (by simp [n7]), if_neg (by simp [n8]), if_neg (by simp [n9]),
      if_neg (by simp [n10]), if_neg (by simp [n11])]

/-- Exhaustive description of what one pass over lines 97–179 can do. -/
theorem consume_state_fates (s : EngineState) :
    consume_state s = s ∨
    (truthy s.state = true ∧
      (consume_state s =
        { s with state := none, iterator := [], sleep := 0, pwm_duty := max_pwm,
                 base_red := 0, base_green := 190, base_blue := 0,
                 rgb_red := 0, rgb_green := 190, rgb_blue := 0 } ∨
       consume_state s =
        { s with state := none, iterator := [], sleep := 0, pwm_duty := max_pwm,
                 rgb_red := (s.base_red : ℚ), rgb_green := (s.base_green : ℚ),
                 rgb_blue := (s.base_blue : ℚ) } ∨
       consume_state s =
        { s with state := none, iterator := [], sleep := 0, pwm_duty := 0,
                 rgb_red := 0, rgb_green := 0, rgb_blue := 0 } ∨
       (∃ fr sl, consume_state s =
        { s with state := none, iterator := fr, cursor := 0, sleep := sl }) ∨
       consume_state s =
        { s with state := none, warning_count := s.warning_count + 1 })) := by
  by_cases h0 : truthy s.state = true
  case neg => exact Or.inl (consume_not_truthy s h0)
  case pos =>
  right
  refine ⟨h0, ?_⟩
  cases hs : s.state with
  | none => rw [hs] at h0; simp [truthy] at h0
  | some t =>
    have ht : t ≠ "" := by
      rw [hs] at h0
      simpa [truthy] using h0
    by_cases h1 : t = "on-green"
    · exact Or.inl (consume_on_green s (by rw [hs, h1]))
    by_cases h2 : t = "on-red"
    · exact Or.inr (Or.inl (consume_on_red s (by rw [hs, h2])))
    by_cases h3 : t = "off"
    · exact Or.inr (Or.inr (Or.inl (consume_off s (by rw [hs, h3]))))
    by_cases h4 : t = "blink"
    · exact Or.inr (Or.inr (Or.inr (Or.inl
        ⟨_, _, consume_blink s (by rw [hs, h4])⟩)))
    by_cases h5 : t = "blink-3"
    · exact Or.inr (Or.inr (Or.inr (Or.inl
        ⟨_, _, consume_blink_3 s (by rw [hs, h5])⟩)))
    by_cases h6 : t = "beacon"
    · exact Or.inr (Or.inr (Or.inr (Or.inl
        ⟨_, _, consume_beacon s (by rw [hs, h6])⟩)))
    by_cases h7 : t = "beacon-dark"
    · exact Or.inr (Or.inr (Or.inr (Or.inl
        ⟨_, _, consume_beacon_dark s (by rw [hs, h7])⟩)))
    by_cases h8 : t = "decay"
    · exact Or.inr (Or.inr (Or.inr (Or.inl
        ⟨_, _, consume_decay s (by rw [hs, h8])⟩)))
    by_cases h9 : t = "pulse-slow"
    · exact Or.inr (Or.inr (Or.inr (Or.inl
        ⟨_, _, consume_pulse_slow s (by rw [hs, h9])⟩)))
    by_cases h10 : t = "pulse-slow-dark"
    · exact Or.inr (Or.inr (Or.inr (Or.inl
        ⟨_, _, consume_pulse_slow_dark s (by rw [hs, h10])⟩)))
    by_cases h11 : t = "pulse-quick"
    · exact Or.inr (Or.inr (Or.inr (Or.inl
        ⟨_, _, consume_pulse_quick s (by rw [hs, h11])⟩)))
    exact Or.inr (Or.inr (Or.inr (Or.inr (consume_invalid s t hs ht
      (by simp [valid_tokens, h1, h2, h3, h4, h5, h6, h7, h8, h9, h10, h11])))))

/-- The dispatch on `self.state` never touches the sleep log. -/
theorem consume_state_sleeps (s : EngineState) :
    (consume_state s).sleeps_performed = s.sleeps_performed := by
  rcases consume_state_fates s with h | ⟨h0, h | h | h | ⟨fr, sl, h⟩ | h⟩ <;> rw [h]

/-- Both branches of lines 180–195 perform exactly one `time.sleep`. -/
theorem render_frame_sleep_len (s : EngineState) :
    (render_frame s).sleeps_performed.length = s.sleeps_performed.length + 1 := by
  by_cases hf : s.iterator ≠ []
  · unfold render_frame; rw [if_pos hf]; simp
  · unfold render_frame; rw [if_neg hf]; simp

/-- Each iteration of the loop body performs exactly one `time.sleep`,
whatever the state — the body contains no check of `running`. -/
theorem animate_step_sleep_len (s : EngineState) :
    (animate_step s).sleeps_performed.length = s.sleeps_performed.length + 1 := by
  rw [animate_step, render_frame_sleep_len, consume_state_sleeps]

/-- Rendering a frame changes neither the mailbox, the iterator, nor the
base colour. -/
theorem render_frame_preserves (s : EngineState) :
    (render_frame s).state = s.state ∧ (render_frame s).iterator = s.iterator ∧
    (render_frame s).base_red = s.base_red ∧
    (render_frame s).base_green = s.base_green ∧
    (render_frame s).base_blue = s.base_blue := by
  by_cases hf : s.iterator ≠ []
  · unfold render_frame; rw [if_pos hf]; exact ⟨rfl, rfl, rfl, rfl, rfl⟩
  · unfold render_frame; rw [if_neg hf]; exact ⟨rfl, rfl, rfl, rfl, rfl⟩

theorem inv_consume {s : EngineState} (h : engine_inv s) :
    engine_inv (consume_state s) := by
  rcases consume_state_fates s with he | ⟨h0, he | he | he | ⟨fr, sl, he⟩ | he⟩ <;>
    rw [he]
  · exact h
  · exact ⟨fun htr => by simp [truthy] at htr, fun hit => absurd rfl hit⟩
  · exact ⟨fun htr => by simp [truthy] at htr, fun hit => absurd rfl hit⟩
  · exact ⟨fun htr => by simp [truthy] at htr, fun hit => absurd rfl hit⟩
  · exact ⟨fun htr => by simp [truthy] at htr, fun _ => h.1 h0⟩
  · exact ⟨fun htr => by simp [truthy] at htr, fun _ => h.1 h0⟩

theorem inv_render {s : EngineState} (h : engine_inv s) :
    engine_inv (render_frame s) := by
  obtain ⟨e1, e2, e3, e4, e5⟩ := render_frame_preserves s
  constructor
  · intro ht
    rw [e1] at ht
    obtain ⟨a, b, c⟩ := h.1 ht
    exact ⟨e3.trans a, e4.trans b, e5.trans c⟩
  · intro hf
    rw [e2] at hf
    obtain ⟨a, b, c⟩ := h.2 hf
    exact ⟨e3.trans a, e4.trans b, e5.trans c⟩

theorem inv_animate {s : EngineState} (h : engine_inv s) :
    engine_inv (animate_step s) :=
  inv_render (inv_consume h)

theorem inv_init : engine_inv init_state :=
  ⟨fun h => absurd h (by decide), fun h => absurd h (by decide)⟩

theorem inv_set (t : String) (s : EngineState) : engine_inv (set_state t s) :=
  ⟨fun _ => ⟨rfl, rfl, rfl⟩, fun _ => ⟨rfl, rfl, rfl⟩⟩

theorem inv_started {s u : EngineState} (h : engine_inv s)
    (he : start s = .ok u) : engine_inv u := by
  simp only [start] at he
  split at he
  · simp at he
  · injection he with h2
    subst h2
    exact ⟨h.1, h.2⟩

theorem inv_stopped {s u : EngineState} {b : Bool} (h : engine_inv s)
    (he : stop s b = .ok u) : engine_inv u := by
  simp only [stop] at he
  split at he
  · injection he with h2
    subst h2
    cases b
    · exact ⟨h.1, h.2⟩
    · exact ⟨(inv_animate (s := { s with running := false }) ⟨h.1, h.2⟩).1,
             (inv_animate (s := { s with running := false }) ⟨h.1, h.2⟩).2⟩
  · simp at he

theorem reachable_inv {s : EngineState} (h : Reachable s) : engine_inv s := by
  induction h with
  | init => exact inv_init
  | set t hs ih => exact inv_set t _
  | step hs ih => exact inv_animate ih
  | started hs he ih => exact inv_started ih he
  | stopped hs he ih => exact inv_stopped ih he

/-- Helper for the scale-factor bound: a base channel in `[0,255]` scaled
by `m / max_brightness` with `m ≤ 100` never exceeds `100`. -/
theorem scaled_channel_le_100 (base m : Nat) (hbase : base ≤ 255) (hm : m ≤ 100) :
    (base : ℚ) * ((m : ℚ) / (max_brightness : ℚ)) ≤ 100 := by
  have h1 : (base : ℚ) ≤ 255 := by exact_mod_cast hbase
  have h2 : (m : ℚ) ≤ 100 := by exact_mod_cast hm
  have h255 : (max_brightness : ℚ) = 255 := by norm_num [max_brightness]
  rw [h255]
  calc (base : ℚ) * ((m : ℚ) / 255)
      ≤ 255 * (100 / 255) := by
        apply mul_le_mul h1 (by linarith) (by positivity) (by norm_num)
    _ = 100 := by norm_num

/-- Claim C1: consuming each valid cyclic token installs exactly the
table's frame sequence (cursor reset to the start) and tick interval —
blink `[0,100]` at 0.5 s; blink-3 `[0,100]` three times then `[0,0]` at
0.25 s; beacon 100 copies of 30, 8 copies of 100, then 100 down to 35 in
steps of −5 at 0.05 s; beacon-dark 10 copies of 0, 0 up to 27 in steps
of 3, then 30 down to 3 in steps of −3 at 0.05 s; decay 100 down to 2 in
steps of −2 at 0.05 s; pulse-slow 0 up to 98 then 100 down to 2 in steps
of 2 at 0.1 s; pulse-slow-dark 10 up to 78 then 80 down to 12 in steps
of 2 at 0.1 s; pulse-quick 0 up to 95 then 100 down to 5 in steps of 5
at 0.05 s — and the loop replays the installed sequence cyclically
forever: each render keeps the frame list, emits
`frames[cursor % len(frames)]` to the PWM and advances the cursor, and
the frame at `cursor + len(frames)` equals the frame at `cursor`. -/
theorem c1_pattern_library :
    (∀ s : EngineState,
      (consume_state { s with state := some "blink" }).iterator = [0, 100] ∧
      (consume_state { s with state := some "blink" }).cursor = 0 ∧
      (consume_state { s with state := some "blink" }).sleep = 0.5) ∧
    (∀ s : EngineState,
      (consume_state { s with state := some "blink-3" }).iterator =
        [0, 100] ++ [0, 100] ++ [0, 100] ++ [0, 0] ∧
      (consume_state { s with state := some "blink-3" }).cursor = 0 ∧
      (consume_state { s with state := some "blink-3" }).sleep = 0.25) ∧
    (∀ s : EngineState,
      (consume_state { s with state := some "beacon" }).iterator =
        List.replicate 100 30 ++ List.replicate 8 100 ++
          (List.range 14).map (fun i => 100 - 5 * i) ∧
      (consume_state { s with state := some "beacon" }).cursor = 0 ∧
      (consume_state { s with state := some "beacon" }).sleep = 0.05) ∧
    (∀ s : EngineState,
      (consume_state { s with state := some "beacon-dark" }).iterator =
        List.replicate 10 0 ++ (List.range 10).map (fun i => 3 * i) ++
          (List.range 10).map (fun i => 30 - 3 * i) ∧
      (consume_state { s with state := some "beacon-dark" }).cursor = 0 ∧
      (consume_state { s with state := some "beacon-dark" }).sleep = 0.05) ∧
    (∀ s : EngineState,
      (consume_state { s with state := some "decay" }).iterator =
        (List.range 50).map (fun i => 100 - 2 * i) ∧
      (consume_state { s with state := some "decay" }).cursor = 0 ∧
      (consume_state { s with state := some "decay" }).sleep = 0.05) ∧
    (∀ s : EngineState,
      (consume_state { s with state := some "pulse-slow" }).iterator =
        (List.range 50).map (fun i => 2 * i) ++
          (List.range 50).map (fun i => 100 - 2 * i) ∧
      (consume_state { s with state := some "pulse-slow" }).cursor = 0 ∧
      (consume_state { s with state := some "pulse-slow" }).sleep = 0.1) ∧
    (∀ s : EngineState,
      (consume_state { s with state := some "pulse-slow-dark" }).iterator =
        (List.range 35).map (fun i => 10 + 2 * i) ++
          (List.range 35).map (fun i => 80 - 2 * i) ∧
      (consume_state { s with state := some "pulse-slow-dark" }).cursor = 0 ∧
      (consume_state { s with state := some "pulse-slow-dark" }).sleep = 0.1) ∧
    (∀ s : EngineState,
      (consume_state { s with state := some "pulse-quick" }).iterator =
        (List.range 20).map (fun i => 5 * i) ++
          (List.range 20).map (fun i => 100 - 5 * i) ∧
      (consume_state { s with state := some "pulse-quick" }).cursor = 0 ∧
      (consume_state { s with state := some "pulse-quick" }).sleep = 0.05) ∧
    (∀ (a : Nat) (l : List Nat) (s : EngineState),
      (render_frame { s with iterator := a :: l }).pwm_duty =
        frame_at (a :: l) s.cursor ∧
      (render_frame { s with iterator := a :: l }).iterator = a :: l ∧
      (render_frame { s with iterator := a :: l }).cursor = s.cursor + 1) ∧
    (∀ (fr : List Nat) (n : Nat), frame_at fr (n + fr.length) = frame_at fr n) := by
  refine ⟨fun _ => ⟨rfl, rfl, rfl⟩, fun _ => ⟨rfl, rfl, rfl⟩, fun _ => ⟨rfl, rfl, rfl⟩,
    fun _ => ⟨rfl, rfl, rfl⟩, fun _ => ⟨rfl, rfl, rfl⟩, fun _ => ⟨rfl, rfl, rfl⟩,
    fun _ => ⟨rfl, rfl, rfl⟩, fun _ => ⟨rfl, rfl, rfl⟩, fun _ _ _ => ⟨rfl, rfl, rfl⟩,
    fun fr n => ?_⟩
  simp [frame_at, Nat.add_mod_right]

/-- Claim C8: every `set_state` call, whatever the token, resets the base
colour to the default red `(255, 0, 0)`. -/
theorem c8_set_state_resets_base_color : ∀ (s : EngineState) (t : String),
    (set_state t s).base_red = 255 ∧ (set_state t s).base_green = 0 ∧
    (set_state t s).base_blue = 0 :=
  fun _ _ => ⟨rfl, rfl, rfl⟩

/-- Claim C9: the mailbox is last-write-wins with no history — after
`set_state A; set_state B` with no intervening consumption the engine
state is identical to one where only `set_state B` was ever called (so
`A`'s pattern can never be installed or rendered), and the pending slot
holds exactly `B`. -/
theorem c9_last_write_wins : ∀ (s : EngineState) (tA tB : String),
    set_state tB (set_state tA s) = set_state tB s ∧
    (set_state tB (set_state tA s)).state = some tB :=
  fun _ _ _ => ⟨rfl, rfl⟩

/-- Claim C7 (as stated): rendering a cyclic frame writes the unscaled
intensity to the PWM, writes each RGB channel as
`base × min(100, intensity) / 255` — the divisor is the constant 255,
`max_brightness`, not 100 — and therefore (for in-range base channels)
each written RGB channel never exceeds `100 = (100/255)·255`, about 39%
of full scale. -/
theorem c7_brightness_scale (s : EngineState) (hf : s.iterator ≠ [])
    (hr : s.base_red ≤ 255) (hg : s.base_green ≤ 255) (hb : s.base_blue ≤ 255) :
    (render_frame s).pwm_duty = frame_at s.iterator s.cursor ∧
    (render_frame s).rgb_red = (s.base_red : ℚ) *
      (((min max_pwm (frame_at s.iterator s.cursor) : Nat) : ℚ) / (max_brightness : ℚ)) ∧
    (render_frame s).rgb_green = (s.base_green : ℚ) *
      (((min max_pwm (frame_at s.iterator s.cursor) : Nat) : ℚ) / (max_brightness : ℚ)) ∧
    (render_frame s).rgb_blue = (s.base_blue : ℚ) *
      (((min max_pwm (frame_at s.iterator s.cursor) : Nat) : ℚ) / (max_brightness : ℚ)) ∧
    (render_frame s).rgb_red ≤ 100 ∧ (render_frame s).rgb_green ≤ 100 ∧
    (render_frame s).rgb_blue ≤ 100 := by
  have e1 : (render_frame s).pwm_duty = frame_at s.iterator s.cursor := by
    unfold render_frame; rw [if_pos hf]
  have e2 : (render_frame s).rgb_red = (s.base_red : ℚ) *
      (((min max_pwm (frame_at s.iterator s.cursor) : Nat) : ℚ) / (max_brightness : ℚ)) := by
    unfold render_frame; rw [if_pos hf]
  have e3 : (render_frame s).rgb_green = (s.base_green : ℚ) *
      (((min max_pwm (frame_at s.iterator s.cursor) : Nat) : ℚ) / (max_brightness : ℚ)) := by
    unfold render_frame; rw [if_pos hf]
  have e4 : (render_frame s).rgb_blue = (s.base_blue : ℚ) *
      (((min max_pwm (frame_at s.iterator s.cursor) : Nat) : ℚ) / (max_brightness : ℚ)) := by
    unfold render_frame; rw [if_pos hf]
  have hmin : min max_pwm (frame_at s.iterator s.cursor) ≤ 100 :=
    min_le_left _ _
  refine ⟨e1, e2, e3, e4, ?_, ?_, ?_⟩
  · rw [e2]; exact scaled_channel_le_100 _ _ hr hmin
  · rw [e3]; exact scaled_channel_le_100 _ _ hg hmin
  · rw [e4]; exact scaled_channel_le_100 _ _ hb hmin

/-- Witness for C7 at a concrete running engine with `blink` active. -/
theorem c7_witness :
    (render_frame blink_active).pwm_duty =
      frame_at blink_active.iterator blink_active.cursor ∧
    (render_frame blink_active).rgb_red = (blink_active.base_red : ℚ) *
      (((min max_pwm (frame_at blink_active.iterator blink_active.cursor) : Nat) : ℚ) /
        (max_brightness : ℚ)) ∧
    (render_frame blink_active).rgb_green = (blink_active.base_green : ℚ) *
      (((min max_pwm (frame_at blink_active.iterator blink_active.cursor) : Nat) : ℚ) /
        (max_brightness : ℚ)) ∧
    (render_frame blink_active).rgb_blue = (blink_active.base_blue : ℚ) *
      (((min max_pwm (frame_at blink_active.iterator blink_active.cursor) : Nat) : ℚ) /
        (max_brightness : ℚ)) ∧
    (render_frame blink_active).rgb_red ≤ 100 ∧
    (render_frame blink_active).rgb_green ≤ 100 ∧
    (render_frame blink_active).rgb_blue ≤ 100 :=
  c7_brightness_scale blink_active (by decide) (by decide) (by decide) (by decide)

/-- Claim C2, amended: after `stop()` returns the animator thread is not
alive, the PWM is stopped and the GPIO line is driven low (so the
physical output is 0, though the registered duty is not rewritten), and
at most one further tick/idle sleep happens after the call; but the RGB
LED is **not** set to `(0,0,0)` — `stop()` issues no `set_color`, so the
BlinkStick keeps whatever colour the loop last wrote. -/
theorem c2_stop_amended (s : EngineState) (b : Bool) (u : EngineState)
    (h : stop s b = .ok u) :
    u.thread_alive = false ∧ u.pwm_on = false ∧ u.gpio_low = true ∧
    pwm_output u = 0 ∧
    u.sleeps_performed.length ≤ s.sleeps_performed.length + 1 ∧
    u.rgb_red = (if b then (animate_step { s with running := false }).rgb_red
                 else s.rgb_red) ∧
    u.rgb_green = (if b then (animate_step { s with running := false }).rgb_green
                   else s.rgb_green) ∧
    u.rgb_blue = (if b then (animate_step { s with running := false }).rgb_blue
                  else s.rgb_blue) ∧
    u.pwm_duty = (if b then (animate_step { s with running := false }).pwm_duty
                  else s.pwm_duty) := by
  simp only [stop] at h
  split at h
  · injection h with h2
    subst h2
    cases b
    · exact ⟨rfl, rfl, rfl, by simp [pwm_output], Nat.le_succ _, rfl, rfl, rfl, rfl⟩
    · exact ⟨rfl, rfl, rfl, by simp [pwm_output],
        le_of_eq (animate_step_sleep_len _), rfl, rfl, rfl, rfl⟩
  · simp at h

/-- Witness for C2 (amended) at `start(); stop()` on a fresh engine. -/
theorem c2_witness :
    stopped_state.thread_alive = false ∧ stopped_state.pwm_on = false ∧
    stopped_state.gpio_low = true ∧ pwm_output stopped_state = 0 ∧
    stopped_state.sleeps_performed.length ≤
      started_state.sleeps_performed.length + 1 ∧
    stopped_state.rgb_red = started_state.rgb_red ∧
    stopped_state.rgb_green = started_state.rgb_green ∧
    stopped_state.rgb_blue = started_state.rgb_blue ∧
    stopped_state.pwm_duty = started_state.pwm_duty :=
  c2_stop_amended started_state false stopped_state rfl

/-- Counterexample to C2 as stated: start the engine, let the loop consume
`set_state("on-red")` (the BlinkStick now shows `(255,0,0)`), then call
`stop()`.  `stop()` returns successfully but the BlinkStick still shows
`(255,0,0)`, not `(0,0,0)`. -/
theorem c2_counterexample :
    ok_rgb (stop (animate_step (set_state "on-red" started_state)) false) =
      some (255, 0, 0) ∧
    ((255 : ℚ), (0 : ℚ), (0 : ℚ)) ≠ ((0 : ℚ), (0 : ℚ), (0 : ℚ)) :=
  ⟨rfl, by decide⟩

/-- Claim C3, amended: neither lifecycle misuse is guarded — there is no
check of `running` in `start` or `stop`.  A second `start()` raises a
`RuntimeError` from `Thread.start` (after re-starting the PWM and setting
`running`), and `stop()` before `start()` raises a `RuntimeError` from
joining the never-started thread (after clearing `running`); both calls
crash rather than being defensive no-ops. -/
theorem c3_lifecycle_amended :
    (∀ s : EngineState, s.thread_started = true →
      err_msg (start s) = some "threads can only be started once") ∧
    (∀ (s : EngineState) (b : Bool), s.thread_started = false →
      err_msg (stop s b) = some "cannot join thread before it is started") := by
  constructor
  · intro s h
    simp [start, err_msg, h]
  · intro s b h
    simp [stop, err_msg, h]

/-- Witness for C3 (amended): a started engine and a fresh engine. -/
theorem c3_witness :
    err_msg (start started_state) = some "threads can only be started once" ∧
    err_msg (stop init_state false) =
      some "cannot join thread before it is started" :=
  ⟨c3_lifecycle_amended.1 started_state rfl,
   c3_lifecycle_amended.2 init_state false rfl⟩

/-- Counterexample to C3 as stated: on a fresh engine, `start(); start()`
raises instead of being a no-op, and `stop()` before `start()` raises
instead of completing. -/
theorem c3_counterexample :
    err_msg (Except.bind (start init_state) start) =
      some "threads can only be started once" ∧
    err_msg (stop init_state false) =
      some "cannot join thread before it is started" :=
  ⟨rfl, rfl⟩

/-- With a faulting `ChangeDutyCycle`, rendering a cyclic frame raises
after `next()` has advanced the cycle. -/
theorem render_frame_exc_pwm_fault (bf : Bool) (s : EngineState)
    (hf : s.iterator ≠ []) :
    render_frame_exc true bf s =
      .error ("ChangeDutyCycle failed", { s with cursor := s.cursor + 1 }) := by
  unfold render_frame_exc
  rw [if_pos hf]
  rfl

/-- Claim C4, amended: per-frame hardware write failures are **not**
caught — `_animate` has no handler, so a raising `pwm.ChangeDutyCycle`
propagates out of the loop body, the animation thread dies immediately,
and no error-level log entry or retry happens. -/
theorem c4_fault_kills_thread (s : EngineState) (n : Nat)
    (hrun : s.running = true) (hf : (consume_state s).iterator ≠ []) :
    thread_died (loop_run_exc true false (n + 1) s) = true := by
  simp only [loop_run_exc, hrun]
  rw [render_frame_exc_pwm_fault false (consume_state s) hf]
  rfl

/-- Witness for C4 (amended) at a running engine with `blink` active. -/
theorem c4_witness : thread_died (loop_run_exc true false 1 blink_active) = true :=
  c4_fault_kills_thread blink_active 0 rfl (by decide)

/-- Counterexample to C4 as stated: with `blink` active and a faulting
PWM write, the loop does not survive the fault — it terminates with the
uncaught exception instead of logging and retrying. -/
theorem c4_counterexample :
    thread_died (loop_run_exc true false 3 blink_active) = true := by decide

/-- Claim C5, amended: for every *non-empty* token outside the enumerated
set, a `set_state` call consumed while a pattern is active leaves the
active pattern (iterator, cursor and tick interval) entirely unchanged
and produces exactly one warning log entry; but for the *empty-string*
token (also outside the set) no warning is ever produced — Python
truthiness of `self.state` makes the loop skip the dispatch, so the
pattern is likewise unchanged but the warning count stays the same. -/
theorem c5_unknown_token_amended (s : EngineState) (t : String)
    (hmem : t ∉ valid_tokens) (hne : t ≠ "") (hact : s.iterator ≠ []) :
    (consume_state (set_state t s)).iterator = s.iterator ∧
    (consume_state (set_state t s)).cursor = s.cursor ∧
    (consume_state (set_state t s)).sleep = s.sleep ∧
    (consume_state (set_state t s)).warning_count = s.warning_count + 1 ∧
    (consume_state (set_state "" s)).iterator = s.iterator ∧
    (consume_state (set_state "" s)).sleep = s.sleep ∧
    (consume_state (set_state "" s)).warning_count = s.warning_count := by
  have h1 := consume_invalid (set_state t s) t rfl hne hmem
  have h2 : consume_state (set_state "" s) = set_state "" s :=
    consume_not_truthy (set_state "" s) (by simp [truthy, set_state])
  rw [h1, h2]
  exact ⟨rfl, rfl, rfl, rfl, rfl, rfl, rfl⟩

/-- Witness for C5 (amended) at a running engine with `blink` active and
the unknown token `"bogus"`. -/
theorem c5_witness :
    (consume_state (set_state "bogus" blink_active)).iterator =
      blink_active.iterator ∧
    (consume_state (set_state "bogus" blink_active)).cursor =
      blink_active.cursor ∧
    (consume_state (set_state "bogus" blink_active)).sleep =
      blink_active.sleep ∧
    (consume_state (set_state "bogus" blink_active)).warning_count =
      blink_active.warning_count + 1 ∧
    (consume_state (set_state "" blink_active)).iterator =
      blink_active.iterator ∧
    (consume_state (set_state "" blink_active)).sleep = blink_active.sleep ∧
    (consume_state (set_state "" blink_active)).warning_count =
      blink_active.warning_count :=
  c5_unknown_token_amended blink_active "bogus" (by decide) (by decide) (by decide)

/-- Counterexample to C5 as stated: `set_state("")` with `blink` active is
a call with a token outside the enumerated set, yet after three further
loop iterations the pattern is unchanged **and the warning count is still
zero** — no warning entry was produced for the call. -/
theorem c5_counterexample :
    (loop_run 3 (set_state "" blink_active)).warning_count = 0 ∧
    (loop_run 3 (set_state "" blink_active)).iterator = [0, 100] ∧
    blink_active.iterator ≠ [] ∧ "" ∉ valid_tokens := by
  refine ⟨by decide, by decide, by decide, by decide⟩

/-- Claim C6, amended: the `running` flag is checked **only** at the
top-of-loop guard, never re-checked before sleeping — the loop body
unconditionally performs exactly one tick/idle sleep per iteration, so an
iteration already past the guard when the flag clears still sleeps once;
once the guard observes `running = False` the loop exits with no further
iterations and no further sleeps. -/
theorem c6_guard_amended :
    (∀ s : EngineState, (animate_step s).sleeps_performed.length =
      s.sleeps_performed.length + 1) ∧
    (∀ (n : Nat) (s : EngineState),
      loop_run n { s with running := false } = { s with running := false }) := by
  refine ⟨animate_step_sleep_len, ?_⟩
  intro n s
  cases n with
  | zero => rfl
  | succ k => simp [loop_run]

/-- Counterexample to C6 as stated: start a fresh engine and call
`stop()` while the loop is just past the guard (`in_flight`).  The claim
says the loop re-checks `running` and exits without sleeping, but the
in-flight iteration still performs its 0.25 s idle sleep. -/
theorem c6_counterexample :
    ok_sleeps (stop started_state true) = some [(0.25 : ℚ)] ∧
    ([(0.25 : ℚ)] : List ℚ) ≠ [] :=
  ⟨rfl, by decide⟩

/-- Claim C10: in every reachable engine state in which the loop would
render a cyclic frame (the iterator is non-empty), the base colour is the
default red `(255,0,0)` — the only write that moves it away from red is
the `on-green` branch, which simultaneously clears the iterator, and
every `set_state` resets it to red — so a rendered cyclic frame is always
scaled red: the green and blue channels written are 0. -/
theorem c10_cyclic_frames_always_red {s : EngineState} (h : Reachable s)
    (hf : s.iterator ≠ []) :
    s.base_red = 255 ∧ s.base_green = 0 ∧ s.base_blue = 0 ∧
    (render_frame s).rgb_green = 0 ∧ (render_frame s).rgb_blue = 0 := by
  obtain ⟨h1, h2, h3⟩ := (reachable_inv h).2 hf
  refine ⟨h1, h2, h3, ?_, ?_⟩
  · have e : (render_frame s).rgb_green = (s.base_green : ℚ) *
        (((min max_pwm (frame_at s.iterator s.cursor) : Nat) : ℚ) /
          (max_brightness : ℚ)) := by
      unfold render_frame; rw [if_pos hf]
    rw [e, h2]
    simp
  · have e : (render_frame s).rgb_blue = (s.base_blue : ℚ) *
        (((min max_pwm (frame_at s.iterator s.cursor) : Nat) : ℚ) /
          (max_brightness : ℚ)) := by
      unfold render_frame; rw [if_pos hf]
    rw [e, h3]
    simp

/-- Witness for C10 at the reachable state
`start(); set_state("blink")` followed by one loop iteration. -/
theorem c10_witness :
    blink_active.base_red = 255 ∧ blink_active.base_green = 0 ∧
    blink_active.base_blue = 0 ∧ (render_frame blink_active).rgb_green = 0 ∧
    (render_frame blink_active).rgb_blue = 0 :=
  c10_cyclic_frames_always_red
    (Reachable.step (Reachable.set "blink"
      (Reachable.started Reachable.init start_init_state)))
    (by decide)

end StatusLed
